import Mathlib

/-!
# Verification of the sbmchAttendance attendance acquisition pipeline

This file gives a shallow embedding of the core of the sbmchAttendance
repository — the metric calculator, the HTML attendance-table parsing, the
LMS login classification, the replace-on-write attendance store with its
latest-snapshot sentinel, the per-user scrape-job registry, and the
acquisition orchestrator — and proves or refutes the specification claims
about them.

Modelling conventions:
* JavaScript numbers are modelled with exact arithmetic (`ℕ`/`ℚ`).  On the
  input ranges the claims quantify over, every comparison and rounding the
  code performs is exact in double precision as well, so the rational
  model agrees with the JS evaluation.
* `x.toFixed(2)` (round to two decimals) is modelled by `round2`, using
  Mathlib's `round` (half-up), which is the tie behaviour ECMAScript
  specifies for `toFixed` on positive values.
* The `while (true)` loop of `computeRequired` increments a counter `r`
  and always returns by the time `r` exceeds 2000; it is embedded with a
  fuel argument instantiated to 2001, which the cap guarantees is never
  exhausted from the entry point `r = 0`.
* Fallible steps (network calls, SQL statements) are modelled by
  `Except`-valued results and explicit fault-injection flags; a statement
  that fails leaves the database unchanged, a transaction that fails is
  rolled back as a whole.
-/

namespace SbmchAttendance

/-! ## Metric calculator (backend/src/services/scraperService.js:36-59) -/

/-- Two-decimal rounding, as performed by `+x.toFixed(2)`. -/
def round2 (q : ℚ) : ℚ := (round (100 * q) : ℚ) / 100

/-- `computePercent(present, total)` (scraperService.js:36-39):
`total === 0 → 0`, else `+((present / total) * 100).toFixed(2)`. -/
def computePercent (present total : ℕ) : ℚ :=
  if total = 0 then 0 else round2 ((present : ℚ) / (total : ℚ) * 100)

/-- The `while (true)` search loop inside `computeRequired`
(scraperService.js:45-51): compute `pct = ((present+r)/(total+r))*100`;
return `r` once `pct >= 75`; otherwise increment `r`, and bail out with
the incremented value once it exceeds 2000.  The fuel argument only
makes the recursion structural; from the entry point (`r = 0`,
`fuel = 2001`) the cap at 2000 always fires before the fuel runs out. -/
def requiredLoop (present total : ℕ) : ℕ → ℕ → ℕ
  | r, 0 => r
  | r, fuel + 1 =>
    if ((present : ℚ) + r) / ((total : ℚ) + r) * 100 ≥ 75 then r
    else if r + 1 > 2000 then r + 1
    else requiredLoop present total (r + 1) fuel

/-- `computeRequired(present, total)` (scraperService.js:41-52). -/
def computeRequired (present total : ℕ) : ℕ :=
  if total = 0 then 0
  else if (present : ℚ) / (total : ℚ) * 100 ≥ 75 then 0
  else requiredLoop present total 0 2001

/-- `computeCanMiss(present, total)` (scraperService.js:54-59):
`max(0, floor(present / 0.75 - total))`, with non-positive `total`
(and, in JS, negative `present`) mapped to 0. -/
def computeCanMiss (present total : ℕ) : ℕ :=
  if total = 0 then 0
  else (⌊(present : ℚ) / (3 / 4) - (total : ℚ)⌋).toNat

/-! ### Closed forms for the calculator -/

theorem ratio_ge_iff (p t r : ℕ) (ht : 1 ≤ t) :
    ((p : ℚ) + r) / ((t : ℚ) + r) * 100 ≥ 75 ↔ 3 * t ≤ 4 * p + r := by
  have hpos : (0 : ℚ) < (t : ℚ) + r := by
    have h1 : (1 : ℚ) ≤ (t : ℚ) := by exact_mod_cast ht
    have h2 : (0 : ℚ) ≤ (r : ℚ) := by positivity
    linarith
  rw [ge_iff_le, div_mul_eq_mul_div, le_div_iff₀ hpos]
  rw [show (75 : ℚ) * ((t : ℚ) + r) = ((75 * (t + r) : ℕ) : ℚ) by push_cast; ring,
      show ((p : ℚ) + r) * 100 = (((p + r) * 100 : ℕ) : ℚ) by push_cast; ring,
      Nat.cast_le]
  omega

theorem requiredLoop_eq (p t : ℕ) (ht : 1 ≤ t) :
    ∀ fuel r, r + fuel = 2001 →
      requiredLoop p t r fuel =
        if 3 * t ≤ 4 * p + r then r else min (3 * t - 4 * p) 2001 := by
  intro fuel
  induction fuel with
  | zero =>
    intro r hr
    have : r = 2001 := by omega
    subst this
    simp only [requiredLoop]
    by_cases h : 3 * t ≤ 4 * p + 2001
    · rw [if_pos h]
    · rw [if_neg h]
      omega
  | succ n ih =>
    intro r hr
    simp only [requiredLoop]
    by_cases h : 3 * t ≤ 4 * p + r
    · rw [if_pos ((ratio_ge_iff p t r ht).mpr h), if_pos h]
    · rw [if_neg (fun hc => h ((ratio_ge_iff p t r ht).mp hc)), if_neg h]
      by_cases h2 : r + 1 > 2000
      · rw [if_pos h2]
        omega
      · rw [if_neg h2, ih (r + 1) (by omega)]
        by_cases h3 : 3 * t ≤ 4 * p + (r + 1)
        · rw [if_pos h3]
          omega
        · rw [if_neg h3]

theorem computeRequired_eq (p t : ℕ) (ht : 1 ≤ t) :
    computeRequired p t = if 3 * t ≤ 4 * p then 0 else min (3 * t - 4 * p) 2001 := by
  unfold computeRequired
  rw [if_neg (by omega)]
  have hiff : (p : ℚ) / (t : ℚ) * 100 ≥ 75 ↔ 3 * t ≤ 4 * p + 0 := by
    simpa using ratio_ge_iff p t 0 ht
  by_cases h : 3 * t ≤ 4 * p
  · rw [if_pos (hiff.mpr (by omega)), if_pos h]
  · rw [if_neg (fun hc => h (by have := hiff.mp hc; omega)), if_neg h]
    rw [requiredLoop_eq p t ht 2001 0 (by omega)]
    rw [if_neg (by omega)]

theorem round2_monotone {a b : ℚ} (h : a ≤ b) : round2 a ≤ round2 b := by
  unfold round2
  have hr : round (100 * a) ≤ round (100 * b) := by
    rw [round_eq, round_eq]
    exact Int.floor_le_floor (by linarith)
  have hc : ((round (100 * a) : ℤ) : ℚ) ≤ ((round (100 * b) : ℤ) : ℚ) := by
    exact_mod_cast hr
  linarith

theorem round2_int_div (n : ℤ) : round2 ((n : ℚ) / 100) = (n : ℚ) / 100 := by
  unfold round2
  rw [show (100 : ℚ) * ((n : ℚ) / 100) = (n : ℚ) by ring, round_intCast]

theorem round2_seventyFive : round2 (75 : ℚ) = 75 := by
  have h0 : ((7500 : ℤ) : ℚ) / 100 = 75 := by norm_num
  calc round2 (75 : ℚ) = round2 (((7500 : ℤ) : ℚ) / 100) := by rw [h0]
    _ = ((7500 : ℤ) : ℚ) / 100 := round2_int_div 7500
    _ = 75 := h0

theorem computePercent_ge_iff (p t : ℕ) (ht : 1 ≤ t) (ht500 : t ≤ 500) :
    computePercent p t ≥ 75 ↔ 3 * t ≤ 4 * p := by
  unfold computePercent
  rw [if_neg (by omega)]
  have htQ : (0 : ℚ) < (t : ℚ) := by exact_mod_cast (by omega : 0 < t)
  constructor
  · intro h
    by_contra hc
    have h4 : 4 * p + 1 ≤ 3 * t := by omega
    -- here p/t*100 ≤ 74.95, so the rounded value is at most 74.95 < 75
    have hle : (p : ℚ) / (t : ℚ) * 100 ≤ ((7495 : ℤ) : ℚ) / 100 := by
      rw [div_mul_eq_mul_div, div_le_div_iff₀ htQ (by norm_num)]
      calc (p : ℚ) * 100 * 100 = ((p * 100 * 100 : ℕ) : ℚ) := by push_cast; ring
        _ ≤ ((7495 * t : ℕ) : ℚ) := by exact_mod_cast (by omega : p * 100 * 100 ≤ 7495 * t)
        _ = ((7495 : ℤ) : ℚ) * (t : ℚ) := by push_cast; ring
    have hmono := round2_monotone hle
    rw [round2_int_div 7495] at hmono
    have : ((7495 : ℤ) : ℚ) / 100 < 75 := by norm_num
    linarith [h, hmono]
  · intro h
    have hge : (75 : ℚ) ≤ (p : ℚ) / (t : ℚ) * 100 := by
      rw [div_mul_eq_mul_div, le_div_iff₀ htQ]
      calc (75 : ℚ) * (t : ℚ) = ((75 * t : ℕ) : ℚ) := by push_cast; ring
        _ ≤ ((p * 100 : ℕ) : ℚ) := by exact_mod_cast (by omega : 75 * t ≤ p * 100)
        _ = (p : ℚ) * 100 := by push_cast; ring
    have := round2_monotone hge
    rw [round2_seventyFive] at this
    exact this

/-! ## Claim C4 -/

/-- C4 (corrected): the claimed metric agreement fails at
`present = 0, total = 0`, which the claim's range `0 ≤ present ≤ total ≤ 500`
includes: there `computeRequired` returns 0 but `computePercent` returns 0,
which is not `≥ 75`, so the claimed equivalence is false. -/
theorem metric_agreement_fails_at_zero_total :
    computeRequired 0 0 = 0 ∧ ¬ (computePercent 0 0 ≥ 75) := by
  constructor
  · rfl
  · show ¬ ((if (0 : ℕ) = 0 then (0 : ℚ) else _) ≥ 75)
    rw [if_pos rfl]
    norm_num

/-- C4 (amended): for all `0 ≤ present ≤ total ≤ 500` with `total ≥ 1`,
`computeRequired(present,total) = 0` iff `computePercent(present,total) ≥ 75`,
and topping up by `computeRequired(present,total)` classes brings
`computePercent` to at least 75. -/
theorem metric_agreement (p t : ℕ) (ht : 1 ≤ t) (hpt : p ≤ t) (ht500 : t ≤ 500) :
    (computeRequired p t = 0 ↔ computePercent p t ≥ 75) ∧
      computePercent (p + computeRequired p t) (t + computeRequired p t) ≥ 75 := by
  have hreq := computeRequired_eq p t ht
  have hiff := computePercent_ge_iff p t ht ht500
  by_cases h : 3 * t ≤ 4 * p
  · rw [if_pos h] at hreq
    refine ⟨⟨fun _ => hiff.mpr h, fun _ => hreq⟩, ?_⟩
    rw [hreq, Nat.add_zero, Nat.add_zero]
    exact hiff.mpr h
  · rw [if_neg h] at hreq
    have hmin : min (3 * t - 4 * p) 2001 = 3 * t - 4 * p := by omega
    rw [hmin] at hreq
    have hne : computeRequired p t ≠ 0 := by omega
    refine ⟨⟨fun hc => absurd hc hne, fun hc => absurd ((hiff).mp hc) h⟩, ?_⟩
    -- after adding r = 3t - 4p the ratio is exactly 3/4, so the percent is exactly 75
    have hbal : (p + computeRequired p t) * 100 = 75 * (t + computeRequired p t) := by omega
    have hpos : (0 : ℚ) < ((t + computeRequired p t : ℕ) : ℚ) := by
      exact_mod_cast (by omega : 0 < t + computeRequired p t)
    unfold computePercent
    rw [if_neg (by omega)]
    have heq : ((p + computeRequired p t : ℕ) : ℚ) / ((t + computeRequired p t : ℕ) : ℚ) * 100 = 75 := by
      rw [div_mul_eq_mul_div, div_eq_iff (ne_of_gt hpos)]
      calc ((p + computeRequired p t : ℕ) : ℚ) * 100
          = (((p + computeRequired p t) * 100 : ℕ) : ℚ) := by push_cast; ring
        _ = ((75 * (t + computeRequired p t) : ℕ) : ℚ) := by exact_mod_cast hbal
        _ = 75 * ((t + computeRequired p t : ℕ) : ℚ) := by push_cast; ring
    rw [heq, round2_seventyFive]

/-- C4 witness: the amended metric agreement at the spec's own concrete
scenario `present = 22, total = 29`. -/
theorem metric_agreement_witness :
    (computeRequired 22 29 = 0 ↔ computePercent 22 29 ≥ 75) ∧
      computePercent (22 + computeRequired 22 29) (29 + computeRequired 22 29) ≥ 75 :=
  metric_agreement 22 29 (by decide) (by decide) (by decide)

/-! ## Claim C6 -/

/-- C6 (counterexample): at `present = 0, total = 668` the deficit
`3*668 - 4*0 = 2004` exceeds the loop cap, and `computeRequired`
returns 2001 — a value whose ratio `(0+2001)/(668+2001)` is still below
0.75, so the returned value is not the claimed smallest such `r`. -/
theorem computeRequired_cap_not_minimal :
    computeRequired 0 668 = 2001 ∧
      ¬ (((0 : ℚ) + (computeRequired 0 668 : ℚ)) / ((668 : ℚ) + (computeRequired 0 668 : ℚ)) ≥ 3 / 4) := by
  have h := computeRequired_eq 0 668 (by omega)
  rw [if_neg (by omega)] at h
  have h2001 : computeRequired 0 668 = 2001 := by omega
  refine ⟨h2001, ?_⟩
  rw [h2001]
  norm_num

/-- C6 (amended): for `total ≥ 1`, whenever the exact deficit
`3*total - 4*present` is at most 2001, `computeRequired(present,total)`
returns the smallest integer `r ≥ 0` with `(present+r)/(total+r) ≥ 0.75`;
beyond that the iteration cap makes it return 2001. -/
theorem computeRequired_minimal_below_cap (p t : ℕ) (ht : 1 ≤ t)
    (hcap : 3 * t ≤ 4 * p + 2001) :
    (((p : ℚ) + (computeRequired p t : ℚ)) / ((t : ℚ) + (computeRequired p t : ℚ)) ≥ 3 / 4) ∧
      ∀ r : ℕ, r < computeRequired p t →
        ¬ (((p : ℚ) + (r : ℚ)) / ((t : ℚ) + (r : ℚ)) ≥ 3 / 4) := by
  have key : ∀ r : ℕ, (((p : ℚ) + (r : ℚ)) / ((t : ℚ) + (r : ℚ)) ≥ 3 / 4) ↔ 3 * t ≤ 4 * p + r := by
    intro r
    have hpos : (0 : ℚ) < (t : ℚ) + r := by
      have h1 : (1 : ℚ) ≤ (t : ℚ) := by exact_mod_cast ht
      have h2 : (0 : ℚ) ≤ (r : ℚ) := by positivity
      linarith
    rw [ge_iff_le, div_le_div_iff₀ (by norm_num : (0 : ℚ) < 4) hpos]
    rw [show (3 : ℚ) * ((t : ℚ) + r) = ((3 * (t + r) : ℕ) : ℚ) by push_cast; ring,
        show ((p : ℚ) + r) * 4 = ((4 * (p + r) : ℕ) : ℚ) by push_cast; ring,
        Nat.cast_le]
    omega
  have hreq := computeRequired_eq p t ht
  constructor
  · rw [key]
    by_cases h : 3 * t ≤ 4 * p
    · rw [if_pos h] at hreq
      omega
    · rw [if_neg h] at hreq
      omega
  · intro r hr
    rw [key]
    by_cases h : 3 * t ≤ 4 * p
    · rw [if_pos h] at hreq
      omega
    · rw [if_neg h] at hreq
      omega

/-- C6 witness: minimality at the spec's concrete scenario
`present = 10, total = 20`: the ratio reached after adding the required
classes is at least 0.75, while one class fewer (r = 19 < required)
still falls short. -/
theorem computeRequired_minimal_below_cap_witness :
    (((10 : ℚ) + (computeRequired 10 20 : ℚ)) / ((20 : ℚ) + (computeRequired 10 20 : ℚ)) ≥ 3 / 4) ∧
      ¬ (((10 : ℚ) + ((19 : ℕ) : ℚ)) / ((20 : ℚ) + ((19 : ℕ) : ℚ)) ≥ 3 / 4) :=
  ⟨(computeRequired_minimal_below_cap 10 20 (by norm_num) (by norm_num)).1,
   (computeRequired_minimal_below_cap 10 20 (by norm_num) (by norm_num)).2 19
     (by rw [computeRequired_eq 10 20 (by norm_num)]; norm_num)⟩

/-! ## Claim C9 -/

/-- C9 (confirmed): `computeRequired` is total (it is a function in this
embedding, and its loop is bounded by the cap), its value never exceeds
2001, and whenever the deficit `3*total - 4*present` exceeds 2000 it
returns exactly the cap value 2001. -/
theorem computeRequired_terminates_capped (p t : ℕ) :
    computeRequired p t ≤ 2001 ∧ (4 * p + 2000 < 3 * t → computeRequired p t = 2001) := by
  by_cases ht : t = 0
  · subst ht
    constructor
    · show (if (0 : ℕ) = 0 then 0 else _) ≤ 2001
      rw [if_pos rfl]
      omega
    · intro h
      omega
  · have hreq := computeRequired_eq p t (by omega)
    by_cases h : 3 * t ≤ 4 * p
    · rw [if_pos h] at hreq
      constructor
      · omega
      · intro hc
        omega
    · rw [if_neg h] at hreq
      constructor
      · omega
      · intro hc
        omega

/-- C9 witness: at `present = 0, total = 668` (deficit 2004 > 2000) the
function stops at the cap and returns 2001 ≤ 2001. -/
theorem computeRequired_terminates_capped_witness :
    computeRequired 0 668 ≤ 2001 ∧ computeRequired 0 668 = 2001 :=
  ⟨(computeRequired_terminates_capped 0 668).1,
   (computeRequired_terminates_capped 0 668).2 (by omega)⟩

/-! ## Session client: login classification
(backend/src/lib/lmsClient.js:68-152)

`loginToLms(studentId, password)` performs GET login page / POST
credentials inside a `try`.  The network behaviour is abstracted as a
`LoginAttempt` value: either the POST's HTTP response (status, body) or a
thrown network-level error message (which also covers the
`Login page request failed` throw for a non-ok GET).  Credentials only
populate the form and do not influence the classification, so they are
not part of the model. -/

/-- Case-sensitive check that `needle` occurs at the start of `hay`. -/
def startsWithL : List Char → List Char → Bool
  | _, [] => true
  | [], _ :: _ => false
  | h :: hs, n :: ns => h = n && startsWithL hs ns

/-- Case-sensitive substring containment, as `String.prototype.includes`. -/
def containsL : List Char → List Char → Bool
  | [], needle => startsWithL [] needle
  | h :: t, needle => startsWithL (h :: t) needle || containsL t needle

/-- `hay.includes(needle)` on strings. -/
def containsSub (hay needle : String) : Bool := containsL hay.data needle.data

/-- Case-insensitive containment, modelling a `/.../i` regex literal-text
test. -/
def containsCI (hay needle : String) : Bool :=
  containsL (hay.data.map Char.toLower) (needle.data.map Char.toLower)

/-- The rejection-marker test `/invalid username|password/i.test(body)`:
the alternation matches either literal, anywhere, case-insensitively. -/
def rejectionMarker (body : String) : Bool :=
  containsCI body "invalid username" || containsCI body "password"

/-- `response.ok`: HTTP status in the 200-299 range. -/
def statusOk (status : ℕ) : Bool := 200 ≤ status && status ≤ 299

/-- The observable network outcome of the login POST sequence. -/
inductive LoginAttempt where
  | response (status : ℕ) (body : String)
  | netError (msg : String)
deriving DecidableEq

/-- The classified result of `loginToLms`:
`success` models `{success: true, name, client}`, `rejected` models
`{success: false, reason}`, `thrown` models a (re-)thrown error. -/
inductive LmsLoginOutcome where
  | success (name : String)
  | rejected (reason : String)
  | thrown (msg : String)
deriving DecidableEq

/-- `loginToLms` from backend/src/lib/lmsClient.js:68-152.
`fetchedName` stands for the display name later read from the dashboard
(lmsClient.js:117), which is irrelevant to the classification. -/
def loginToLms (fetchedName : String) (attempt : LoginAttempt) : LmsLoginOutcome :=
  match attempt with
  | .netError msg =>
    -- the catch block (lmsClient.js:129-151)
    if containsSub msg "ENOTFOUND" || containsSub msg "ECONNREFUSED" ||
        containsSub msg "ETIMEDOUT" || containsSub msg "timeout" then
      .thrown ("LMS unavailable: " ++ msg)
    else if containsSub msg "Login failed" || containsSub msg "invalid" ||
        containsSub msg "rejected" then
      .rejected "invalid_credentials"
    else
      .thrown msg
  | .response status body =>
    -- lmsClient.js:109-128
    if status = 301 ∨ status = 302 ∨ status = 303 then
      .success fetchedName
    else if !statusOk status || rejectionMarker body then
      .rejected "invalid_credentials"
    else
      .rejected "unexpected_response"

/-! ## Claim C7 -/

/-- C7 (counterexample): a 307 response — a 30x status — to the login POST
is NOT treated as success: only 301/302/303 are, and 307 falls through to
the body inspection, where `response.ok` is false, yielding the
credential-rejection classification. -/
theorem login_307_rejected :
    loginToLms "S" (.response 307 "Temporary Redirect") = .rejected "invalid_credentials" ∧
      loginToLms "S" (.response 307 "Temporary Redirect") ≠ .success "S" := by
  constructor
  · rfl
  · decide

/-- C7 (amended): `loginToLms` treats a 301/302/303 response to the login
POST as success (other 30x statuses fall through to body inspection and
are classified as rejection); a 200 response carrying the case-insensitive
`invalid username|password` marker is classified as credential rejection;
and a network-level failure whose message carries a host-unreachable, DNS
or timeout code is re-thrown as the distinct `LMS unavailable` outcome,
not as a rejection. -/
theorem loginToLms_classification (n : String) :
    (∀ st body, (st = 301 ∨ st = 302 ∨ st = 303) →
        loginToLms n (.response st body) = .success n) ∧
      (∀ body, rejectionMarker body = true →
        loginToLms n (.response 200 body) = .rejected "invalid_credentials") ∧
      (∀ msg, (containsSub msg "ENOTFOUND" || containsSub msg "ECONNREFUSED" ||
          containsSub msg "ETIMEDOUT" || containsSub msg "timeout") = true →
        loginToLms n (.netError msg) = .thrown ("LMS unavailable: " ++ msg) ∧
          ∀ reason, loginToLms n (.netError msg) ≠ .rejected reason) := by
  refine ⟨?_, ?_, ?_⟩
  · intro st body hst
    show (if st = 301 ∨ st = 302 ∨ st = 303 then LmsLoginOutcome.success n
      else if (!statusOk st || rejectionMarker body) = true then .rejected "invalid_credentials"
      else .rejected "unexpected_response") = .success n
    rw [if_pos hst]
  · intro body hm
    show (if (200 : ℕ) = 301 ∨ (200 : ℕ) = 302 ∨ (200 : ℕ) = 303 then LmsLoginOutcome.success n
      else if (!statusOk 200 || rejectionMarker body) = true then .rejected "invalid_credentials"
      else .rejected "unexpected_response") = .rejected "invalid_credentials"
    rw [if_neg (by omega), if_pos (by rw [hm, Bool.or_true])]
  · intro msg hm
    show (if (containsSub msg "ENOTFOUND" || containsSub msg "ECONNREFUSED" ||
          containsSub msg "ETIMEDOUT" || containsSub msg "timeout") = true then
        LmsLoginOutcome.thrown ("LMS unavailable: " ++ msg)
      else if (containsSub msg "Login failed" || containsSub msg "invalid" ||
          containsSub msg "rejected") = true then .rejected "invalid_credentials"
      else .thrown msg) = .thrown ("LMS unavailable: " ++ msg) ∧
        ∀ reason, (if (containsSub msg "ENOTFOUND" || containsSub msg "ECONNREFUSED" ||
          containsSub msg "ETIMEDOUT" || containsSub msg "timeout") = true then
        LmsLoginOutcome.thrown ("LMS unavailable: " ++ msg)
      else if (containsSub msg "Login failed" || containsSub msg "invalid" ||
          containsSub msg "rejected") = true then .rejected "invalid_credentials"
      else .thrown msg) ≠ .rejected reason
    rw [if_pos hm]
    exact ⟨rfl, fun reason => by simp⟩

/-- C7 witness: a 302 redirect is a success; a 200 body containing
`Invalid Username or Password!` is a rejection; an `ENOTFOUND` network
error is the distinct unavailable outcome. -/
theorem loginToLms_classification_witness :
    loginToLms "S" (.response 302 "") = .success "S" ∧
      loginToLms "S" (.response 200 "Invalid Username or Password!") = .rejected "invalid_credentials" ∧
      loginToLms "S" (.netError "getaddrinfo ENOTFOUND sbmchlms.com") =
        .thrown ("LMS unavailable: " ++ "getaddrinfo ENOTFOUND sbmchlms.com") := by
  refine ⟨(loginToLms_classification "S").1 302 "" (by omega),
    (loginToLms_classification "S").2.1 "Invalid Username or Password!" (by decide),
    ((loginToLms_classification "S").2.2 "getaddrinfo ENOTFOUND sbmchlms.com" (by decide)).1⟩

/-! ## Attendance-table parsing
(backend/src/services/scraperService.js:160-202, `parseAttendanceRows`)

The cheerio-loaded result fragment is abstracted as an `HtmlFragment`:
`attendanceResultTables` is `some ts` when the document contains an
`.attendance_result` container (`ts` being the tables found inside it,
possibly none), and `none` when there is no such container, in which case
the tables of the whole document are used (`$('table')`).  Each table
carries the text contents of the `td` cells of its `tbody tr` rows. -/

/-- One maximal whitespace run becomes a single space:
`replace(/\s+/g, ' ')`.  The flag records whether the previous character
was part of a whitespace run. -/
def collapseWsAux : Bool → List Char → List Char
  | _, [] => []
  | inRun, c :: cs =>
    if c.isWhitespace then
      (if inRun then [] else [' ']) ++ collapseWsAux true cs
    else c :: collapseWsAux false cs

/-- Strip leading and trailing whitespace (`String.prototype.trim`). -/
def trimL (cs : List Char) : List Char :=
  ((cs.dropWhile Char.isWhitespace).reverse.dropWhile Char.isWhitespace).reverse

/-- `cleanText(value)` (scraperService.js:28-30):
`value.replace(/\s+/g, ' ').trim()`. -/
def cleanText (s : String) : String :=
  String.mk (trimL (collapseWsAux false s.data))

/-- Digit-run value, as `parseInt(run, 10)`. -/
def digitsToNat (cs : List Char) : ℕ :=
  cs.foldl (fun acc c => acc * 10 + (c.toNat - '0'.toNat)) 0

/-- A character matched by the `[\d.]` class. -/
def isPercentChar (c : Char) : Bool := c.isDigit || c = '.'

/-- First maximal run of characters satisfying `p`, i.e. the text of the
first match of `/[c]+/` for a character class `c`. -/
def firstRun (p : Char → Bool) : List Char → Option (List Char)
  | [] => none
  | c :: cs => if p c then some (c :: cs.takeWhile p) else firstRun p cs

/-- `parseFloat` on a string drawn from `[\d.]+`: leading digits, an
optional dot with following digits; a lone dot (no digits either side of
the leading position) is `NaN`, modelled as `none`. -/
def parseFloatQ (cs : List Char) : Option ℚ :=
  let d1 := cs.takeWhile Char.isDigit
  match cs.dropWhile Char.isDigit with
  | '.' :: rest2 =>
    let d2 := rest2.takeWhile Char.isDigit
    if d1 = [] ∧ d2 = [] then none
    else some ((digitsToNat d1 : ℚ) + (digitsToNat d2 : ℚ) / (10 : ℚ) ^ d2.length)
  | _ => if d1 = [] then none else some (digitsToNat d1)

/-- `percentText.match(/[\d.]+/)` followed by `parseFloat`; `none` models
the `NaN` outcome (no match, or a non-numeric match such as "."). -/
def parsePercentText (s : String) : Option ℚ :=
  match firstRun isPercentChar s.data with
  | none => none
  | some run => parseFloatQ run

/-- Try to match `(\d+)\s*\/\s*(\d+)` at the start of the text.  The
digit and whitespace classes are disjoint from `/`, so the greedy maximal
runs are exactly what the regex engine commits to. -/
def ratioAt (cs : List Char) : Option (ℕ × ℕ) :=
  let d1 := cs.takeWhile Char.isDigit
  if d1 = [] then none
  else
    match ((cs.dropWhile Char.isDigit).dropWhile Char.isWhitespace) with
    | '/' :: r2 =>
      let d2 := (r2.dropWhile Char.isWhitespace).takeWhile Char.isDigit
      if d2 = [] then none else some (digitsToNat d1, digitsToNat d2)
    | _ => none

/-- First match of `(\d+)\s*\/\s*(\d+)` anywhere in the text: the
regex engine tries each successive start position. -/
def findRatio : List Char → Option (ℕ × ℕ)
  | [] => none
  | c :: cs =>
    match ratioAt (c :: cs) with
    | some x => some x
    | none => findRatio cs

/-- One parsed attendance row, with the fields pushed at
scraperService.js:191-199. -/
structure ScrapedRow where
  subject : String
  sessionsCompleted : ℕ
  totalSessions : ℕ
  present : ℕ
  total : ℕ
  absent : ℕ
  percent : ℚ
deriving DecidableEq

/-- The body of the per-row callback (scraperService.js:176-199), applied
to the text of the first three cells. -/
def mkRow (subjectCell percentCell presentCell : String) : ScrapedRow :=
  let subject := cleanText subjectCell
  let percentText := cleanText percentCell
  let presentText := cleanText presentCell
  let percentValue := parsePercentText percentText
  let ratioMatch := findRatio presentText.data
  let sessionsCompleted := match ratioMatch with | some m => m.1 | none => 0
  let totalSessions := match ratioMatch with | some m => m.2 | none => 0
  let present := sessionsCompleted
  let total := totalSessions
  let absent := if present ≤ total then total - present else 0
  let percent :=
    match percentValue with
    | some v => round2 v
    | none => if total ≠ 0 then round2 ((present : ℚ) / (total : ℚ) * 100) else 0
  ⟨subject, sessionsCompleted, totalSessions, present, total, absent, percent⟩

/-- A table: the `td` text contents of each of its `tbody tr` rows. -/
structure HtmlTable where
  bodyRows : List (List String)
deriving DecidableEq

/-- A cheerio-loaded result fragment, see the section header. -/
structure HtmlFragment where
  attendanceResultTables : Option (List HtmlTable)
  documentTables : List HtmlTable
deriving DecidableEq

/-- `resultBox.length ? resultBox.find('table') : $('table')`
(scraperService.js:165-166). -/
def selectedTables (frag : HtmlFragment) : List HtmlTable :=
  match frag.attendanceResultTables with
  | some ts => ts
  | none => frag.documentTables

/-- The `each` callback including its `tds.length < 3` early return. -/
def rowRecord (cells : List String) : Option ScrapedRow :=
  match cells with
  | a :: b :: c :: _ => some (mkRow a b c)
  | _ => none

/-- `parseAttendanceRows(resultPage)` (scraperService.js:160-202).
`none` stands for a falsy `resultPage`.  The function is total: a missing
table is an empty list, never an error. -/
def parseAttendanceRows (resultPage : Option HtmlFragment) : List ScrapedRow :=
  match resultPage with
  | none => []
  | some frag =>
    let table := selectedTables frag
    if table.length = 0 then []
    else ((table.map HtmlTable.bodyRows).flatten).filterMap rowRecord

theorem length_filterMap_rowRecord (l : List (List String)) :
    (l.filterMap rowRecord).length = (l.filter (fun r => 3 ≤ r.length)).length := by
  induction l with
  | nil => rfl
  | cons hd tl ih =>
    match hd with
    | [] => simpa [rowRecord, List.filterMap_cons, List.filter_cons] using ih
    | [a] => simpa [rowRecord, List.filterMap_cons, List.filter_cons] using ih
    | [a, b] => simpa [rowRecord, List.filterMap_cons, List.filter_cons] using ih
    | a :: b :: c :: rest =>
      simpa [rowRecord, List.filterMap_cons, List.filter_cons,
        Nat.succ_le_succ, List.length_cons] using ih

/-! ## Claim C8 -/

/-- C8 (confirmed): `parseAttendanceRows` is total and returns the empty
list on a falsy fragment or when no results table is selected; exactly
the body rows with at least 3 cells produce records; a row whose
present/total cell has no `digits/digits` match gets `present = total = 0`;
and a row whose percentage cell is not numeric derives its percent from
present/total (0 when total is 0, else rounded to two decimals). -/
theorem parseAttendanceRows_spec :
    parseAttendanceRows none = [] ∧
      (∀ frag, selectedTables frag = [] → parseAttendanceRows (some frag) = []) ∧
      (∀ frag, (parseAttendanceRows (some frag)).length =
        (((selectedTables frag).map HtmlTable.bodyRows).flatten.filter
          (fun r => 3 ≤ r.length)).length) ∧
      (∀ a b c, findRatio (cleanText c).data = none →
        (mkRow a b c).present = 0 ∧ (mkRow a b c).total = 0) ∧
      (∀ a b c, parsePercentText (cleanText b) = none →
        (mkRow a b c).percent =
          (if (mkRow a b c).total = 0 then 0
           else round2 (((mkRow a b c).present : ℚ) / ((mkRow a b c).total : ℚ) * 100))) := by
  refine ⟨rfl, ?_, ?_, ?_, ?_⟩
  · intro frag h
    simp [parseAttendanceRows, h]
  · intro frag
    show (if (selectedTables frag).length = 0 then []
        else (((selectedTables frag).map HtmlTable.bodyRows).flatten).filterMap rowRecord).length = _
    by_cases h : (selectedTables frag).length = 0
    · rw [if_pos h]
      rw [List.length_eq_zero] at h
      simp [h]
    · rw [if_neg h]
      exact length_filterMap_rowRecord _
  · intro a b c h
    constructor <;> simp [mkRow, h]
  · intro a b c h
    simp only [mkRow, h]
    by_cases ht : (match findRatio (cleanText c).data with | some m => m.2 | none => 0) = 0 <;>
      simp [ht]

/-- C8 witness: a fragment whose `.attendance_result` container holds no
table parses to the empty list; a `"NA"` ratio cell gives
`present = total = 0`; a non-numeric `"-"` percent cell derives the
percent from the `"30 / 40"` ratio cell. -/
theorem parseAttendanceRows_spec_witness :
    parseAttendanceRows (some ⟨some [], [⟨[["S", "50", "1/2"]]⟩]⟩) = [] ∧
      ((mkRow "Anatomy" "75" "NA").present = 0 ∧ (mkRow "Anatomy" "75" "NA").total = 0) ∧
      (mkRow "Physiology" "-" "30 / 40").percent =
        (if (mkRow "Physiology" "-" "30 / 40").total = 0 then 0
         else round2 (((mkRow "Physiology" "-" "30 / 40").present : ℚ) /
           ((mkRow "Physiology" "-" "30 / 40").total : ℚ) * 100)) :=
  ⟨parseAttendanceRows_spec.2.1 ⟨some [], [⟨[["S", "50", "1/2"]]⟩]⟩ (by decide),
   parseAttendanceRows_spec.2.2.2.1 "Anatomy" "75" "NA" (by decide),
   parseAttendanceRows_spec.2.2.2.2 "Physiology" "-" "30 / 40" (by decide)⟩

/-! ## Attendance store
(tables created in backend/server.js:280-315; accessed by the scraper
service and the attendance endpoint)

Rows are modelled positionally; `id` stands for the generated uuid of an
attendance row and `now`/`fetchedAt`/`recordedAt` for timestamps
(`now()` / `recorded_at` defaults). -/

/-- One parsed upcoming class (scraperService.js:114-139): all fields are
cleaned text, possibly empty. -/
structure UpcomingClass where
  title : String
  subtitle : String
  location : String
  time : String
  avatar : String
deriving DecidableEq

/-- A row of the `attendance` table. -/
structure AttendanceRow where
  id : ℕ
  username : String
  studentName : String
  subject : String
  present : ℕ
  absent : ℕ
  total : ℕ
  percent : ℚ
  margin : ℕ
  required : ℕ
  src : String
  recordedAt : ℕ
deriving DecidableEq

/-- A row of the `upcoming_classes` table.  The insert at
part_008:441-451 finds no `id`/`class_id`/`start_time`/`end_time` on a
parsed class, stores the title (or NULL when falsy) as `class_name`, and
stringifies the whole object into `metadata`. -/
structure UpcomingClassRow where
  username : String
  classId : Option String
  className : Option String
  metadata : UpcomingClass
deriving DecidableEq

/-- A row of the `latest_snapshot` table (one per username). -/
structure SnapshotRow where
  username : String
  attendanceId : Option ℕ
  fetchedAt : ℕ
deriving DecidableEq

/-- The persistent store. -/
structure DB where
  attendance : List AttendanceRow
  upcomingClasses : List UpcomingClassRow
  latestSnapshot : List SnapshotRow
  nextId : ℕ
  now : ℕ
deriving DecidableEq

/-- `DELETE FROM attendance WHERE username = $1`.  The schema declares
`latest_snapshot.attendance_id ... REFERENCES attendance(id) ON DELETE
SET NULL` (server.js:311), so snapshot references to deleted rows are
nulled. -/
def deleteAttendanceFor (u : String) (db : DB) : DB :=
  let deletedIds := (db.attendance.filter (fun r => r.username = u)).map AttendanceRow.id
  { db with
    attendance := db.attendance.filter (fun r => ¬ r.username = u)
    latestSnapshot := db.latestSnapshot.map (fun s =>
      match s.attendanceId with
      | some i => if deletedIds.contains i then { s with attendanceId := none } else s
      | none => s) }

/-- `DELETE FROM upcoming_classes WHERE username = $1`. -/
def deleteUpcomingFor (u : String) (db : DB) : DB :=
  { db with upcomingClasses := db.upcomingClasses.filter (fun r => ¬ r.username = u) }

/-- One processed attendance entry (part_008:332-348). -/
structure ProcessedRow where
  subject : String
  present : ℕ
  absent : ℕ
  total : ℕ
  percent : ℚ
  margin : ℕ
  required : ℕ
deriving DecidableEq

/-- The `processed` mapping over scraped rows (part_008:332-348).  In the
typed model the `present`/`total` fields always exist and `absent`/
`percent` are always finite, so only the main branches remain; `percent`
still goes through `toFixed(2)`. -/
def processRow (row : ScrapedRow) : ProcessedRow :=
  { subject := row.subject
    present := row.present
    absent := row.absent
    total := row.total
    percent := round2 row.percent
    margin := computeCanMiss row.present row.total
    required := computeRequired row.present row.total }

/-- The insert loop for attendance rows inside the transaction
(part_008:374-426): each row gets a generated id and `recorded_at = now`. -/
def insertAttendanceRows (u name : String) : List ProcessedRow → DB → DB
  | [], db => db
  | r :: rs, db =>
    insertAttendanceRows u name rs
      { db with
        attendance := db.attendance ++
          [⟨db.nextId, u, name, r.subject, r.present, r.absent, r.total,
            r.percent, r.margin, r.required, "scraper", db.now⟩]
        nextId := db.nextId + 1 }

/-- The insert loop for upcoming classes (part_008:432-483). -/
def insertUpcomingRows (u : String) (cs : List UpcomingClass) (db : DB) : DB :=
  { db with
    upcomingClasses := db.upcomingClasses ++ cs.map (fun c =>
      ⟨u, none, (if c.title = "" then none else some c.title), c⟩) }

/-- `SELECT id FROM attendance WHERE username = $1 ORDER BY recorded_at
DESC LIMIT 1` (part_008:487-490): the id of a row with maximal
`recorded_at` (first such row on ties, which the SQL leaves open). -/
def selectLatestId (u : String) (db : DB) : Option ℕ :=
  match db.attendance.filter (fun r => r.username = u) with
  | [] => none
  | r :: rs => some ((rs.foldl (fun b x => if b.recordedAt < x.recordedAt then x else b) r).id)

/-- The snapshot upsert with a real record reference (part_008:493-499):
`ON CONFLICT (username) DO UPDATE SET attendance_id = ..., fetched_at = ...`. -/
def upsertSnapshotWithId (u : String) (i : ℕ) (db : DB) : DB :=
  if db.latestSnapshot.any (fun s => s.username = u) then
    { db with latestSnapshot := db.latestSnapshot.map (fun s =>
        if s.username = u then { s with attendanceId := some i, fetchedAt := db.now } else s) }
  else
    { db with latestSnapshot := db.latestSnapshot ++ [⟨u, some i, db.now⟩] }

/-- The empty-sentinel snapshot upsert (part_008:505-511):
`INSERT ... VALUES ($1, NULL, now()) ON CONFLICT (username) DO UPDATE SET
fetched_at = EXCLUDED.fetched_at` — the conflict branch updates only
`fetched_at`. -/
def upsertSnapshotEmpty (u : String) (db : DB) : DB :=
  if db.latestSnapshot.any (fun s => s.username = u) then
    { db with latestSnapshot := db.latestSnapshot.map (fun s =>
        if s.username = u then { s with fetchedAt := db.now } else s) }
  else
    { db with latestSnapshot := db.latestSnapshot ++ [⟨u, none, db.now⟩] }

/-! ## Acquisition orchestrator
(`triggerScrape`, src/unnamed/part_008:306-550)

The network phase (`scrapeAttendance`: login, dashboard fetch, attendance
fetch+parse) is abstracted as a `ScrapeOutcome`; the claims only depend on
whether it succeeded and on the parsed rows.  Each fallible storage step
carries a fault-injection flag: a failed plain statement leaves the store
unchanged, a failed insert transaction is rolled back as a whole
(part_008:416-423), but the two DELETEs before it are separate
auto-committed statements (part_008:360-362). -/

/-- Result of the network/parsing phase. -/
inductive ScrapeOutcome where
  | ok (studentName : String) (upcomingClasses : List UpcomingClass)
      (attendanceRows : List ScrapedRow)
  | err (msg : String)
deriving DecidableEq

/-- Fault injection for the five storage steps of one cycle. -/
structure StorageFaults where
  deleteAttendanceFails : Bool
  deleteUpcomingFails : Bool
  insertAttendanceFails : Bool
  insertUpcomingFails : Bool
  snapshotFails : Bool
deriving DecidableEq

/-- A cycle with no storage failure. -/
def noFaults : StorageFaults := ⟨false, false, false, false, false⟩

/-- The `{ success: true, attendanceCount }` summary (part_008:542). -/
structure ScrapeSummary where
  success : Bool
  attendanceCount : ℕ
deriving DecidableEq

/-- `triggerScrape(studentId, password, fromDate, toDate)`
(src/unnamed/part_008:306-550): on a scrape failure the error propagates
with no store mutation; otherwise delete old rows, insert the new batches,
then upsert the snapshot — with the real latest id when one exists, else
with the NULL sentinel.  Returns the thrown/ok result together with the
store as left behind. -/
def triggerScrape (u : String) (outcome : ScrapeOutcome) (faults : StorageFaults)
    (db : DB) : Except String ScrapeSummary × DB :=
  match outcome with
  | .err m => (.error m, db)
  | .ok name ups rows =>
    let processed := rows.map processRow
    let studentName := if name = "" then u else name
    if faults.deleteAttendanceFails then (.error "delete attendance failed", db)
    else
      let db1 := deleteAttendanceFor u db
      if faults.deleteUpcomingFails then (.error "delete upcoming failed", db1)
      else
        let db2 := deleteUpcomingFor u db1
        if 0 < processed.length ∧ faults.insertAttendanceFails then
          (.error "insert attendance failed", db2)
        else
          let db3 := if 0 < processed.length then insertAttendanceRows u studentName processed db2 else db2
          if 0 < ups.length ∧ faults.insertUpcomingFails then
            (.error "insert upcoming failed", db3)
          else
            let db4 := if 0 < ups.length then insertUpcomingRows u ups db3 else db3
            if faults.snapshotFails then (.error "snapshot failed", db4)
            else
              let db5 :=
                match selectLatestId u db4 with
                | some i => upsertSnapshotWithId u i db4
                | none => upsertSnapshotEmpty u db4
              (.ok ⟨true, (db5.attendance.filter (fun r => r.username = u)).length⟩, db5)

/-! ## The attendance read endpoint
(`GET /api/attendance`, backend/server.js:1280-1412) -/

/-- The observable response of the endpoint: `pending` is the
`202 {status: 'pending'}` body, `success` the 200 payload. -/
inductive AttendanceReadResult where
  | pending
  | success (studentName : String) (attendance : List ProcessedRow)
      (upcomingClasses : List UpcomingClassRow) (fetchedAt : ℕ)
deriving DecidableEq

/-- The handler's store-driven decision (server.js:1296-1407): no
snapshot row → pending; snapshot row but zero attendance rows → the same
pending response (server.js:1327-1333); otherwise the data payload.
Result ordering (`ORDER BY`) is presentational and not modelled. -/
def getApiAttendance (u : String) (db : DB) : AttendanceReadResult :=
  match db.latestSnapshot.find? (fun s => s.username = u) with
  | none => .pending
  | some snap =>
    match db.attendance.filter (fun r => r.username = u) with
    | [] => .pending
    | r :: rs =>
      let studentName := if r.studentName = "" then u else r.studentName
      .success studentName
        ((r :: rs).map (fun a =>
          ⟨a.subject, a.present, a.absent, a.total, a.percent, a.margin, a.required⟩))
        (db.upcomingClasses.filter (fun c => c.username = u))
        snap.fetchedAt

/-! ## Scrape job scheduler
(`triggerAttendanceScrape`, backend/routes/auth.js:370-521)

`scrapingStatus` is the process-local map `username -> { running, promise }`.
JavaScript's event loop runs the synchronous prefix of
`triggerAttendanceScrape` — the lookup, the registration of
`{running: true}`, and the assignment `status.promise = job` — atomically,
so the whole prefix is one transition here.  The promise handle is
modelled by a fresh natural number; the boolean in the result records
whether a new underlying login/fetch job was started. -/

/-- One entry of `scrapingStatus`. -/
structure JobEntry where
  running : Bool
  handle : ℕ
deriving DecidableEq

/-- The process-local registry plus a handle supply. -/
structure Registry where
  jobs : List (String × JobEntry)
  nextHandle : ℕ
deriving DecidableEq

/-- `scrapingStatus[studentId]`. -/
def lookupJob (u : String) (reg : Registry) : Option JobEntry :=
  (reg.jobs.find? (fun kv => kv.1 = u)).map Prod.snd

/-- `scrapingStatus[studentId] = status` (assignment replaces any
previous entry). -/
def setJob (u : String) (e : JobEntry) (reg : Registry) : Registry :=
  { reg with jobs := (u, e) :: reg.jobs.filter (fun kv => ¬ kv.1 = u) }

/-- The synchronous prefix of `triggerAttendanceScrape`
(auth.js:370-380, 519-520): if an entry for the user is `running`, return
its handle without starting work; otherwise register a running entry with
a fresh handle and start the job.  The returned boolean is `true` iff a
new underlying login/fetch sequence was started. -/
def triggerAttendanceScrape (u : String) (reg : Registry) : ℕ × Registry × Bool :=
  match lookupJob u reg with
  | some e =>
    if e.running then (e.handle, reg, false)
    else (reg.nextHandle, { setJob u ⟨true, reg.nextHandle⟩ reg with nextHandle := reg.nextHandle + 1 }, true)
  | none =>
    (reg.nextHandle, { setJob u ⟨true, reg.nextHandle⟩ reg with nextHandle := reg.nextHandle + 1 }, true)

/-- The `finally` block of the job (auth.js:513-516):
`status.running = false`, regardless of success or failure — the job's
`catch` swallows every error (auth.js:494-512) before it runs. -/
def finishJob (u : String) (reg : Registry) : Registry :=
  { reg with jobs := reg.jobs.map (fun kv =>
      if kv.1 = u then (kv.1, { kv.2 with running := false }) else kv) }

/-! ## The auth-route scrape job body
(the async IIFE inside `triggerAttendanceScrape`, auth.js:380-517)

The job: `loginToLms` (the lmsClient classification above), dashboard
fetch, attendance fetch, then — with a NON-empty row list required — the
shared database save.  Any thrown error is caught and only logged, so the
cycle's outcome is the `Except` value below, and on every error path the
store is untouched. -/

/-- Dashboard fetch result (auth.js:406). -/
structure DashboardData where
  studentName : String
  upcomingClasses : List UpcomingClass
deriving DecidableEq

/-- Modelled from the spec: `saveScrapedDataToDatabase` is imported by
routes/auth.js from the scraper service (auth.js:158, 466) but no
definition of it appears among the source files; §4.4 of the spec
describes the store phase as replace (delete old rows, insert the new
batches) followed by the snapshot upsert, exactly as `triggerScrape`
implements it inline, so the same store operations are composed here. -/
def saveScrapedDataToDatabase (u name : String) (processed : List ProcessedRow)
    (ups : List UpcomingClass) (db : DB) : DB :=
  let db1 := deleteUpcomingFor u (deleteAttendanceFor u db)
  let db2 := insertUpcomingRows u ups (insertAttendanceRows u name processed db1)
  match selectLatestId u db2 with
  | some i => upsertSnapshotWithId u i db2
  | none => upsertSnapshotEmpty u db2

/-- The job body of auth.js:380-517 as a function of the network results:
login outcome, dashboard result, attendance fetch result.  The empty-row
guard at auth.js:430-433 throws `No attendance data found in LMS` before
any store access. -/
def authScrapeJob (u : String) (login : LmsLoginOutcome)
    (dash : Except String DashboardData) (fetched : Except String (List ScrapedRow))
    (db : DB) : Except String Unit × DB :=
  match login with
  | .thrown m => (.error m, db)
  | .rejected reason => (.error ("LMS login failed: " ++ reason), db)
  | .success _ =>
    match dash with
    | .error m => (.error m, db)
    | .ok d =>
      match fetched with
      | .error m => (.error m, db)
      | .ok rows =>
        if rows.length = 0 then
          (.error "No attendance data found in LMS", db)
        else
          let processed := rows.map processRow
          (.ok (),
            saveScrapedDataToDatabase u
              (if d.studentName = "" then u else d.studentName) processed
              d.upcomingClasses db)

/-! ## Fixtures and helper lemmas for the store-level claims -/

/-- A store with no data at all (identity never triggered). -/
def dbEmpty : DB := ⟨[], [], [], 1, 100⟩

/-- A store holding one successful prior cycle for `stu1`: one attendance
row (id 1), one upcoming class, and a snapshot pointing at row 1, all
fetched at time 50. -/
def dbPrior : DB :=
  ⟨[⟨1, "stu1", "Name", "Anatomy", 30, 10, 40, 75, 0, 0, "scraper", 50⟩],
   [⟨"stu1", none, some "Ward Round", ⟨"Ward Round", "", "", "", ""⟩⟩],
   [⟨"stu1", some 1, 50⟩], 2, 100⟩

/-- Fault injection: the attendance insert transaction fails (and is
rolled back); everything else succeeds. -/
def faultsInsert : StorageFaults := ⟨false, false, true, false, false⟩

/-- A freshly scraped row: 3 of 4 sessions, 75%. -/
def newRow34 : ScrapedRow := ⟨"Physiology", 3, 4, 3, 4, 1, 75⟩

theorem filter_not_filter_eq_nil (u : String) :
    ∀ l : List AttendanceRow,
      (l.filter (fun r => ¬ r.username = u)).filter (fun r => r.username = u) = [] := by
  intro l
  induction l with
  | nil => rfl
  | cons hd tl ih =>
    by_cases hc : hd.username = u <;> simp [List.filter_cons, hc, ih]

theorem filter_after_delete (u : String) (db : DB) :
    ((deleteUpcomingFor u (deleteAttendanceFor u db)).attendance).filter
      (fun r => r.username = u) = [] := by
  show ((db.attendance.filter (fun r => ¬ r.username = u)).filter (fun r => r.username = u)) = []
  exact filter_not_filter_eq_nil u db.attendance

/-! ## Claim C1 -/

/-- C1 (code bug): a successful acquisition cycle that parses zero rows
leaves the NULL-sentinel snapshot in the store, yet `GET /api/attendance`
still answers with the same `pending` response as for an identity that
was never triggered — the handler (server.js:1327-1333) returns 202
whenever the attendance-row list is empty, never inspecting
`attendance_id`, although the repo's own fix reports document the
intended `attendance_id === null → 200 empty` branch. -/
theorem read_after_empty_cycle_is_pending :
    (triggerScrape "stu1" (.ok "Name" [] []) noFaults dbEmpty).1 = .ok ⟨true, 0⟩ ∧
      ((triggerScrape "stu1" (.ok "Name" [] []) noFaults dbEmpty).2).latestSnapshot =
        [⟨"stu1", none, 100⟩] ∧
      getApiAttendance "stu1" ((triggerScrape "stu1" (.ok "Name" [] []) noFaults dbEmpty).2) =
        .pending ∧
      getApiAttendance "stu1" dbEmpty = .pending := by
  refine ⟨rfl, rfl, rfl, rfl⟩

/-! ## Claim C2 -/

/-- C2 (code bug): on a cycle whose login and both fetches succeed with
zero parsed rows, the auth-route job (auth.js:430-433) throws
`No attendance data found in LMS` and leaves the store untouched — the
empty list IS treated as a failure and no sentinel is written — while the
scraper service's `triggerScrape` (part_008:492-516) completes the same
cycle successfully and upserts the NULL-sentinel snapshot. -/
theorem empty_result_cycle_divergence :
    authScrapeJob "stu1" (.success "Name") (.ok ⟨"Name", []⟩) (.ok []) dbEmpty =
      (.error "No attendance data found in LMS", dbEmpty) ∧
      (triggerScrape "stu1" (.ok "Name" [] []) noFaults dbEmpty).1 = .ok ⟨true, 0⟩ ∧
      ((triggerScrape "stu1" (.ok "Name" [] []) noFaults dbEmpty).2).latestSnapshot =
        [⟨"stu1", none, 100⟩] := by
  refine ⟨rfl, rfl, rfl⟩

/-! ## Claim C3 -/

/-- C3 (counterexample): identity `stu1` has a prior successful snapshot
(`dbPrior`); a new cycle succeeds over the network but its attendance
insert transaction fails.  The transaction is rolled back, but the two
DELETEs before it were separate auto-committed statements
(part_008:360-362), so the prior rows are gone, the snapshot reference
was nulled by the FK cascade, and a reader now gets `pending` instead of
the previous data: the failing cycle did NOT leave the prior state
observable. -/
theorem storage_failure_loses_prior_rows :
    (triggerScrape "stu1" (.ok "Name" [] [newRow34]) faultsInsert dbPrior).1 =
      .error "insert attendance failed" ∧
      ((triggerScrape "stu1" (.ok "Name" [] [newRow34]) faultsInsert dbPrior).2).attendance = [] ∧
      ((triggerScrape "stu1" (.ok "Name" [] [newRow34]) faultsInsert dbPrior).2).latestSnapshot =
        [⟨"stu1", none, 50⟩] ∧
      getApiAttendance "stu1"
          ((triggerScrape "stu1" (.ok "Name" [] [newRow34]) faultsInsert dbPrior).2) =
        .pending ∧
      getApiAttendance "stu1" dbPrior ≠ .pending := by
  refine ⟨rfl, rfl, rfl, rfl, by decide⟩

/-- C3 (amended): a cycle that fails BEFORE any store mutation (network
phase, or the first DELETE statement itself) leaves the store unchanged;
but a storage failure in the insert transaction after the deletes leaves
the deleted-but-not-reinserted state visible: the error propagates, the
store equals the post-delete store, and no attendance rows remain for the
identity. -/
theorem failure_preserves_state_amended :
    (∀ u m faults db, triggerScrape u (.err m) faults db = (.error m, db)) ∧
      (∀ u name ups rows faults db, faults.deleteAttendanceFails = true →
        (triggerScrape u (.ok name ups rows) faults db).2 = db) ∧
      (∀ u name ups rows faults db,
        faults.deleteAttendanceFails = false → faults.deleteUpcomingFails = false →
          faults.insertAttendanceFails = true → rows ≠ [] →
          (triggerScrape u (.ok name ups rows) faults db).1 = .error "insert attendance failed" ∧
            (triggerScrape u (.ok name ups rows) faults db).2 =
              deleteUpcomingFor u (deleteAttendanceFor u db) ∧
            ((triggerScrape u (.ok name ups rows) faults db).2).attendance.filter
              (fun r => r.username = u) = []) := by
  refine ⟨fun u m faults db => rfl, ?_, ?_⟩
  · intro u name ups rows faults db h
    simp [triggerScrape, h]
  · intro u name ups rows faults db h1 h2 h3 hrows
    have hlen : 0 < (rows.map processRow).length ∧ faults.insertAttendanceFails = true := by
      refine ⟨?_, h3⟩
      rw [List.length_map]
      exact List.length_pos.mpr hrows
    have heval : triggerScrape u (.ok name ups rows) faults db =
        (.error "insert attendance failed", deleteUpcomingFor u (deleteAttendanceFor u db)) := by
      simp only [triggerScrape]
      rw [if_neg (by simp [h1]), if_neg (by simp [h2]),
        if_pos (by exact ⟨hlen.1, by simp [h3]⟩)]
    refine ⟨by rw [heval], by rw [heval], ?_⟩
    rw [heval]
    exact filter_after_delete u db

/-- C3 witness: the amended preservation at concrete inputs — a network
failure leaves `dbPrior` untouched, and the insert-transaction failure
leaves no attendance rows for the identity. -/
theorem failure_preserves_state_witness :
    triggerScrape "stu1" (.err "LMS host not reachable") noFaults dbPrior =
      (.error "LMS host not reachable", dbPrior) ∧
      ((triggerScrape "stu1" (.ok "Name" [] [newRow34]) faultsInsert dbPrior).2).attendance.filter
        (fun r => r.username = "stu1") = [] :=
  ⟨failure_preserves_state_amended.1 "stu1" "LMS host not reachable" noFaults dbPrior,
   (failure_preserves_state_amended.2.2 "stu1" "Name" [] [newRow34] faultsInsert dbPrior
      rfl rfl rfl (by decide)).2.2⟩

/-! ## Claim C5 -/

theorem lookupJob_finishJob (u : String) (reg : Registry) :
    lookupJob u (finishJob u reg) =
      (lookupJob u reg).map (fun e => { e with running := false }) := by
  show ((reg.jobs.map (fun kv =>
      if kv.1 = u then (kv.1, { kv.2 with running := false }) else kv)).find?
        (fun kv => kv.1 = u)).map Prod.snd =
    ((reg.jobs.find? (fun kv => kv.1 = u)).map Prod.snd).map (fun e => { e with running := false })
  induction reg.jobs with
  | nil => rfl
  | cons hd tl ih =>
    by_cases hc : hd.1 = u
    · simp [List.find?_cons, hc]
    · simp only [List.map_cons, List.find?_cons]
      rw [if_neg hc]
      simp only [show (decide (hd.1 = u)) = false by simp [hc]]
      exact ih

/-- C5 (confirmed): while an entry for an identity is `running`, a second
`triggerAttendanceScrape` returns the existing handle, changes nothing
and starts no new login/fetch sequence; finishing the job — on success or
failure alike, via the `finally` block — marks the entry not-running
while keeping its handle; and a trigger after the finish starts fresh
work with a new handle. -/
theorem scrape_job_dedup :
    (∀ u reg e, lookupJob u reg = some e → e.running = true →
      triggerAttendanceScrape u reg = (e.handle, reg, false)) ∧
      (∀ u reg e, lookupJob u reg = some e →
        lookupJob u (finishJob u reg) = some { e with running := false }) ∧
      (∀ u reg e, lookupJob u reg = some e → e.running = true →
        (triggerAttendanceScrape u (finishJob u reg)).1 = reg.nextHandle ∧
          (triggerAttendanceScrape u (finishJob u reg)).2.2 = true) := by
  refine ⟨?_, ?_, ?_⟩
  · intro u reg e h hr
    simp [triggerAttendanceScrape, h, hr]
  · intro u reg e h
    rw [lookupJob_finishJob, h]
    rfl
  · intro u reg e h hr
    have hl : lookupJob u (finishJob u reg) = some { e with running := false } := by
      rw [lookupJob_finishJob, h]
      rfl
    constructor <;> simp only [triggerAttendanceScrape, hl] <;> simp [finishJob]

/-- C5 witness: with `alice` running under handle 7, a second trigger
returns handle 7 unchanged; after the finish the entry is
`{running := false, handle := 7}` and a new trigger starts fresh work. -/
theorem scrape_job_dedup_witness :
    triggerAttendanceScrape "alice" (⟨[("alice", ⟨true, 7⟩)], 8⟩ : Registry) =
      (7, (⟨[("alice", ⟨true, 7⟩)], 8⟩ : Registry), false) ∧
      lookupJob "alice" (finishJob "alice" (⟨[("alice", ⟨true, 7⟩)], 8⟩ : Registry)) =
        some ⟨false, 7⟩ ∧
      (triggerAttendanceScrape "alice"
          (finishJob "alice" (⟨[("alice", ⟨true, 7⟩)], 8⟩ : Registry))).2.2 = true :=
  ⟨scrape_job_dedup.1 "alice" ⟨[("alice", ⟨true, 7⟩)], 8⟩ ⟨true, 7⟩ (by decide) rfl,
   scrape_job_dedup.2.1 "alice" ⟨[("alice", ⟨true, 7⟩)], 8⟩ ⟨true, 7⟩ (by decide),
   (scrape_job_dedup.2.2 "alice" ⟨[("alice", ⟨true, 7⟩)], 8⟩ ⟨true, 7⟩ (by decide) rfl).2⟩

/-! ## Claim C10 -/

theorem find?_map_fetchedAt (u : String) (now : ℕ) :
    ∀ (l : List SnapshotRow) (s : SnapshotRow),
      l.find? (fun r => r.username = u) = some s →
      (l.map (fun r => if r.username = u then { r with fetchedAt := now } else r)).find?
        (fun r => r.username = u) = some { s with fetchedAt := now } := by
  intro l
  induction l with
  | nil => intro s h; cases h
  | cons hd tl ih =>
    intro s h
    by_cases hc : hd.username = u
    · rw [List.find?_cons_of_pos _ (by simp [hc])] at h
      cases h
      simp only [List.map_cons]
      rw [if_pos hc]
      exact List.find?_cons_of_pos _ (by simp [hc])
    · rw [List.find?_cons_of_neg _ (by simp [hc])] at h
      simp only [List.map_cons]
      rw [if_neg hc]
      rw [List.find?_cons_of_neg _ (by simp [hc])]
      exact ih s h

theorem any_of_find?_eq_some {l : List SnapshotRow} {u : String} {s : SnapshotRow}
    (h : l.find? (fun r => r.username = u) = some s) :
    l.any (fun r => r.username = u) = true := by
  have hm := List.mem_of_find?_eq_some h
  have hp := List.find?_some h
  refine List.any_eq_true.mpr ⟨s, hm, ?_⟩
  exact hp

/-- C10 (confirmed): the empty-sentinel upsert's conflict branch updates
only `fetched_at` — an existing snapshot row keeps its `attendance_id`
rather than having it overwritten with NULL — and only a brand-new row
receives the NULL reference; and an empty successful cycle is exactly a
sentinel upsert over the post-delete store. -/
theorem upsertSnapshotEmpty_frame :
    (∀ u db s, db.latestSnapshot.find? (fun r => r.username = u) = some s →
      (upsertSnapshotEmpty u db).latestSnapshot.find? (fun r => r.username = u) =
        some { s with fetchedAt := db.now }) ∧
      (∀ u db, db.latestSnapshot.find? (fun r => r.username = u) = none →
        (upsertSnapshotEmpty u db).latestSnapshot =
          db.latestSnapshot ++ [⟨u, none, db.now⟩]) ∧
      (∀ u name db, (triggerScrape u (.ok name [] []) noFaults db).2 =
        upsertSnapshotEmpty u (deleteUpcomingFor u (deleteAttendanceFor u db))) := by
  refine ⟨?_, ?_, ?_⟩
  · intro u db s h
    unfold upsertSnapshotEmpty
    rw [if_pos (any_of_find?_eq_some h)]
    exact find?_map_fetchedAt u db.now db.latestSnapshot s h
  · intro u db h
    unfold upsertSnapshotEmpty
    rw [if_neg ?_]
    intro hc
    rcases List.any_eq_true.mp hc with ⟨s, hm, hp⟩
    exact absurd hp (List.find?_eq_none.mp h s hm)
  · intro u name db
    have hsel : selectLatestId u (deleteUpcomingFor u (deleteAttendanceFor u db)) = none := by
      unfold selectLatestId
      rw [filter_after_delete u db]
    simp only [triggerScrape, noFaults, List.map_nil, List.length_nil, lt_self_iff_false,
      false_and, Bool.false_eq_true, and_false, if_false, ite_false]
    rw [hsel]

/-- C10 witness: with an existing snapshot `("stu1", some 5, 50)` and
store time 100, the sentinel upsert keeps `attendance_id = some 5` and
only moves `fetched_at` to 100; with no snapshot row it appends the NULL
row. -/
theorem upsertSnapshotEmpty_frame_witness :
    (upsertSnapshotEmpty "stu1"
        (⟨[], [], [⟨"stu1", some 5, 50⟩], 1, 100⟩ : DB)).latestSnapshot.find?
      (fun r => r.username = "stu1") = some ⟨"stu1", some 5, 100⟩ ∧
      (upsertSnapshotEmpty "stu1" dbEmpty).latestSnapshot = [⟨"stu1", none, 100⟩] :=
  ⟨upsertSnapshotEmpty_frame.1 "stu1" ⟨[], [], [⟨"stu1", some 5, 50⟩], 1, 100⟩
      ⟨"stu1", some 5, 50⟩ (by decide),
   upsertSnapshotEmpty_frame.2.1 "stu1" dbEmpty (by decide)⟩

end SbmchAttendance
